import Mathlib

/-!
Verification development for the monitory-model-serving retraining and
model-lifecycle pipeline.

The Python sources are shallowly embedded as executable Lean definitions:

* `app/core/constants.py`        → alert thresholds, feature schema, ratios
* `app/service/retrain_service.py` → raw → wide preprocessing, fault
  labelling, backward RUL computation, class balancing, and the
  `train_and_upload` pipeline with its promotion policy
* `app/service/data_service.py`  → serving-side `preprocess_input_data`
* `app/service/model_service.py` → serving-side model cache

Machine floats are modelled as `ℚ` with `Option ℚ` for pandas `NaN`
cells.  `np.sqrt` / float square roots are kept as an explicit function
parameter `sqrtF : ℚ → ℚ` (the embedding never depends on its values for
any of the verified properties).  Externally-effectful collaborators
(S3 listing/fetch, the LightGBM fit itself, seeded pandas sampling) are
explicit parameters of the pipeline: the sampler is constrained to
return a sublist, the shuffler to return a permutation, which are the
facts the source's seeded `DataFrame.sample` calls guarantee.
-/

namespace Monitory

/-! ## Constants (`app/core/constants.py`) -/

/-- `ALERT_THRESH`: per-sensor `(lo, hi)` alert thresholds.  Note the keys
are the *standardized* sensor names, exactly as in `constants.py`. -/
def ALERT_THRESH : List (String × ℚ × ℚ) :=
  [("temperature", (41, 101)),
   ("pressure", (46/10, 6688/100)),
   ("vibration", (-(1/2), 38/10)),
   ("humidity", (145/10, 8554/100)),
   ("active_power", (0, 168026)),
   ("reactive_power", (0, 86759))]

/-- `FEATURE_COLS`: the model input feature schema. -/
def FEATURE_COLS : List String :=
  ["temperature", "pressure", "vibration", "humidity",
   "active_power", "reactive_power",
   "active_power_rollmean", "active_power_rollstd",
   "reactive_power_rollmean", "reactive_power_rollstd",
   "temperature_rollmean", "temperature_rollstd",
   "pressure_rollmean", "pressure_rollstd",
   "vibration_rollmean", "vibration_rollstd",
   "humidity_rollmean", "humidity_rollstd",
   "power_factor",
   "equipment"]

/-- `DOWN_RATIO_ZERO = 0.20` (down-sampling fraction for `rul == 0`). -/
def DOWN_RATIO_ZERO : ℚ := 1/5

/-- `OVER_RATIO`: duplication factor for the rare RUL classes 1‒15. -/
def OVER_RATIO : List (Nat × Nat) :=
  [(1, 3), (2, 8), (3, 8),
   (4, 10), (5, 10),
   (6, 12), (7, 16), (8, 17), (9, 19),
   (10, 20), (11, 20), (12, 20), (13, 20), (14, 20), (15, 20)]

/-- `MIN_BALANCED_ROWS = 300`. -/
def MIN_BALANCED_ROWS : Nat := 300

/-- `MIN_R2 = 0.20`: promotion floor on R². -/
def MIN_R2 : ℚ := 1/5

/-- `_MAX_RUL = 30` (retrain_service.py). -/
def MAX_RUL : Nat := 30

/-- `_DOWNSTREAM_WIN = 5`: rolling window. -/
def DOWNSTREAM_WIN : Nat := 5

/-! ## Generic list helpers (kernel-reducible, structural recursion) -/

/-- Insert into a `le`-sorted list (stable: goes before later equals). -/
def insSorted (le : α → α → Bool) (x : α) : List α → List α
  | [] => [x]
  | y :: ys => if le x y then x :: y :: ys else y :: insSorted le x ys

/-- Stable insertion sort (models `DataFrame.sort_values`). -/
def sortBy (le : α → α → Bool) : List α → List α
  | [] => []
  | x :: xs => insSorted le x (sortBy le xs)

/-- Collect a list of fallible results, failing when any element fails
(a per-row `KeyError` aborting the whole transform). -/
def mapOpt (f : α → Option β) : List α → Option (List β)
  | [] => some []
  | a :: t =>
    match f a, mapOpt f t with
    | some b, some bs => some (b :: bs)
    | _, _ => none

/-- Maximum of a rational list (models `pivot_table(aggfunc="max")` on a
group), `none` on the empty group. -/
def listMax : List ℚ → Option ℚ
  | [] => none
  | x :: xs =>
    match listMax xs with
    | none => some x
    | some y => some (max x y)

/-- `Series.median()` with linear interpolation: middle element for odd
length, mean of the two middles for even length; `NaN` on empty input. -/
def median (l : List ℚ) : Option ℚ :=
  let s := sortBy (fun a b => decide (a ≤ b)) l
  let n := s.length
  if n = 0 then none
  else if n % 2 = 1 then s.get? (n / 2)
  else
    match s.get? (n / 2 - 1), s.get? (n / 2) with
    | some a, some b => some ((a + b) / 2)
    | _, _ => none

/-- `Series.ffill(limit = k)`: a `NaN` run after a valid value is filled
for at most `k` positions. -/
def ffillAux (last : Option ℚ) (gap : Nat) (k : Nat) : List (Option ℚ) → List (Option ℚ)
  | [] => []
  | some v :: t => some v :: ffillAux (some v) 0 k t
  | none :: t =>
    (if gap < k then last else none) :: ffillAux last (gap + 1) k t

def ffillL (k : Nat) (l : List (Option ℚ)) : List (Option ℚ) :=
  ffillAux none k k l

/-- `Series.bfill(limit = k)`: `ffill` of the reversed series. -/
def bfillL (k : Nat) (l : List (Option ℚ)) : List (Option ℚ) :=
  (ffillL k l.reverse).reverse

/-! ## Backward RUL computation (`_add_rul`, retrain_service.py 164‒178)

The Python loop walks each equipment's hour-ordered rows backward keeping
`nxt`: a faulty row sets `nxt = 0`; a non-faulty row sets
`nxt = nxt + 1` when defined and `NaN` otherwise (and `NaN + 1 = NaN`
keeps it undefined).  `none` models `NaN`/undefined. -/

def addRul : List Bool → List (Option Nat)
  | [] => []
  | b :: t =>
    let rest := addRul t
    let nxt : Option Nat := match rest with
      | [] => none
      | x :: _ => x
    (if b then some 0 else nxt.map (· + 1)) :: rest

/-- `df_wide["rul"].fillna(_MAX_RUL).clip(upper=_MAX_RUL)` applied to the
raw backward walk. -/
def rulLabels (fs : List Bool) : List Nat :=
  (addRul fs).map (fun o => min (o.getD MAX_RUL) MAX_RUL)

/-! ## Raw readings and `_prepare_training_df` (retrain_service.py 89‒205)

A raw NDJSON record carries at least `{equipId, sensorType, val, time}`;
`time` is modelled as seconds since the epoch (`ts_hour` = hour floor).
`zoneId` / `sensorId` are dropped by the source and not modelled. -/

structure RawRow where
  time : Nat
  equipId : String
  sensorType : String
  val : ℚ
deriving DecidableEq, Repr

/-- `keep`: sensor filter — note the *raw* names `temp` / `humid`. -/
def keepSensors : List String :=
  ["active_power", "humid", "pressure", "reactive_power", "temp", "vibration"]

/-- `num_cols` at line 124 (raw names, pivot-column order). -/
def numColsRaw : List String :=
  ["temp", "pressure", "vibration", "humid", "active_power", "reactive_power"]

/-- `ts_hour = timestamp.dt.floor("h")`. -/
def hourOf (r : RawRow) : Nat := r.time / 3600

/-- `df_use = df[df["sensorType"].isin(keep)]`. -/
def usedRows (raw : List RawRow) : List RawRow :=
  raw.filter (fun r => keepSensors.contains r.sensorType)

/-- Lexicographic order on `(equipId, ts_hour)` — the line-140
`sort_values(["equipId", "timestamp"])` order. -/
def pairLe (a b : String × Nat) : Bool :=
  if a.1 = b.1 then decide (a.2 ≤ b.2) else decide (a.1 < b.1)

/-- The distinct `(equipId, ts_hour)` index pairs of the pivot table, in
the final `(equipId, timestamp)` sort order. -/
def pairList (use : List RawRow) : List (String × Nat) :=
  sortBy pairLe ((use.map (fun r => (r.equipId, hourOf r))).dedup)

/-- One pivot cell: `max` of the values of sensor `s` for `(e, h)`;
`none` (`NaN`) when the bucket has no reading of that sensor. -/
def cellMax (use : List RawRow) (e : String) (h : Nat) (s : String) : Option ℚ :=
  listMax ((use.filter
    (fun r => hourOf r = h ∧ r.equipId = e ∧ r.sensorType = s)).map (·.val))

/-- The hour axis of one equipment's timeline (ascending). -/
def equipHours (use : List RawRow) (e : String) : List Nat :=
  sortBy (fun a b => decide (a ≤ b))
    (((use.filter (fun r => r.equipId = e)).map hourOf).dedup)

/-- Position of hour `h` inside equipment `e`'s timeline (the hours are
distinct, so this is the index of `h`). -/
def posIn (use : List RawRow) (e : String) (h : Nat) : Nat :=
  (equipHours use e).countP (fun x => decide (x < h))

/-- The time-ordered pivot-cell series of sensor `s` for equipment `e`
(the column a `groupby("equipId")[col]` rolling window walks). -/
def colSeries (use : List RawRow) (e : String) (s : String) : List (Option ℚ) :=
  (equipHours use e).map (fun h => cellMax use e h s)

/-- The non-`NaN` values of the rolling window ending at index `i`
(window 5, `min_periods = 1`; pandas skips `NaN` observations). -/
def windowVals (xs : List (Option ℚ)) (i : Nat) : List ℚ :=
  (((xs.take (i + 1)).drop (i + 1 - DOWNSTREAM_WIN)).filterMap id)

/-- `rolling(win, 1).mean()`: `NaN` when the window holds no observation. -/
def rollMeanAt (xs : List (Option ℚ)) (i : Nat) : Option ℚ :=
  let w := windowVals xs i
  if w.length = 0 then none else some (w.sum / w.length)

/-- Sample variance `Σ(x − μ)² / (n − 1)` of a window (`n ≥ 2`). -/
def sampleVar (w : List ℚ) : ℚ :=
  let n : ℚ := w.length
  let μ : ℚ := w.sum / n
  ((w.map (fun x => (x - μ) ^ 2)).sum) / (n - 1)

/-- `rolling(win, 1).std()` followed by the immediate `.fillna(0)` of
line 130: the single-observation window's undefined sample std becomes
`0`; otherwise the std is `sqrtF` of the sample variance. -/
def rollStdAt (sqrtF : ℚ → ℚ) (xs : List (Option ℚ)) (i : Nat) : ℚ :=
  let w := windowVals xs i
  if 2 ≤ w.length then sqrtF (sampleVar w) else 0

/-- `power_factor = active_power / sqrt(active_power² + reactive_power²)`
then `.fillna(0)` (line 132‒134): `NaN` inputs and the `0/0` case give
`0`.  Computed from the *pre-imputation* pivot cells, as in the source. -/
def powerFactorAt (sqrtF : ℚ → ℚ) (use : List RawRow) (e : String) (h : Nat) : ℚ :=
  match cellMax use e h "active_power", cellMax use e h "reactive_power" with
  | some a, some b => if a = 0 ∧ b = 0 then 0 else a / sqrtF (a ^ 2 + b ^ 2)
  | _, _ => 0

/-- Line 141: `groupby("equipId")[raw_cols].ffill(limit=3).bfill(limit=1)`
applied to one equipment's time-ordered sensor series. -/
def ffbfSeries (use : List RawRow) (e : String) (s : String) : List (Option ℚ) :=
  bfillL 1 (ffillL 3 (colSeries use e s))

/-- Lines 142‒143: the fill value is the *global* column median over the
whole frame (all equipment), taken after the forward/backward fill. -/
def colMedian (use : List RawRow) (s : String) : Option ℚ :=
  median (((use.map (·.equipId)).dedup).flatMap
    (fun e => (ffbfSeries use e s).filterMap id))

/-- The imputed raw-sensor cell: forward/backward-filled value when
available, else the global column median (which stays `NaN` only if the
whole column is `NaN`). -/
def imputedCell (use : List RawRow) (e : String) (h : Nat) (s : String) : Option ℚ :=
  match (ffbfSeries use e s).getD (posIn use e h) none with
  | some v => some v
  | none => colMedian use s

/-! ### Fault labelling (retrain_service.py 147‒162) -/

/-- Threshold lookup in `ALERT_THRESH`. -/
def threshOf (s : String) : Option (ℚ × ℚ) := ALERT_THRESH.lookup s

/-- The net effect of the `alert` loop on one reading: rows whose
`sensorType` matches an `ALERT_THRESH` key get
`(val < lo) | (val > hi)`; all other rows keep `alert = 0`.  The loop
runs *before* the `temp→temperature` / `humid→humidity` rename. -/
def alertB (r : RawRow) : Bool :=
  match threshOf r.sensorType with
  | some (lo, hi) => decide (r.val < lo) || decide (hi < r.val)
  | none => false

/-- `faulty`: per `(ts_hour, equipId)` group, `cnt = sum(alert)` and
`faulty = (cnt >= 2)`.  The later left-merge + `fillna({"faulty": 0})`
makes pairs missing from the aggregation non-faulty, which coincides
with the empty-group count being `0` here. -/
def faultyAt (use : List RawRow) (h : Nat) (e : String) : Bool :=
  2 ≤ (use.filter (fun r => hourOf r = h ∧ r.equipId = e)).countP alertB

/-- The faulty flags of one equipment's hour-ordered timeline. -/
def faultySeries (use : List RawRow) (e : String) : List Bool :=
  (equipHours use e).map (fun h => faultyAt use h e)

/-- The RUL label of row `(e, h)` (groupby-apply of `_add_rul` followed
by the fill/clip of line 178). -/
def rulAt (use : List RawRow) (e : String) (h : Nat) : Nat :=
  (rulLabels (faultySeries use e)).getD (posIn use e h) 0

/-! ### The wide training row

Field names are the *standardized* column names produced by the final
rename block (lines 180‒202: `equipId → equipment`, `temp →
temperature`, `humid → humidity`, also on the rolling columns).  Raw
sensor cells are post-imputation, rolling statistics are computed on the
pre-imputation pivot cells, exactly as in the source's order of
operations. -/

structure TrainRow where
  timestamp : Nat
  equipment : String
  temperature : Option ℚ
  pressure : Option ℚ
  vibration : Option ℚ
  humidity : Option ℚ
  active_power : Option ℚ
  reactive_power : Option ℚ
  temperature_rollmean : Option ℚ
  temperature_rollstd : ℚ
  pressure_rollmean : Option ℚ
  pressure_rollstd : ℚ
  vibration_rollmean : Option ℚ
  vibration_rollstd : ℚ
  humidity_rollmean : Option ℚ
  humidity_rollstd : ℚ
  active_power_rollmean : Option ℚ
  active_power_rollstd : ℚ
  reactive_power_rollmean : Option ℚ
  reactive_power_rollstd : ℚ
  power_factor : ℚ
  faulty : Bool
  rul : Nat
deriving DecidableEq, Repr

/-- Assemble the wide row of index pair `(e, h)`. -/
def mkTrainRow (sqrtF : ℚ → ℚ) (use : List RawRow) (e : String) (h : Nat) : TrainRow :=
  let i := posIn use e h
  { timestamp := h
    equipment := e
    temperature := imputedCell use e h "temp"
    pressure := imputedCell use e h "pressure"
    vibration := imputedCell use e h "vibration"
    humidity := imputedCell use e h "humid"
    active_power := imputedCell use e h "active_power"
    reactive_power := imputedCell use e h "reactive_power"
    temperature_rollmean := rollMeanAt (colSeries use e "temp") i
    temperature_rollstd := rollStdAt sqrtF (colSeries use e "temp") i
    pressure_rollmean := rollMeanAt (colSeries use e "pressure") i
    pressure_rollstd := rollStdAt sqrtF (colSeries use e "pressure") i
    vibration_rollmean := rollMeanAt (colSeries use e "vibration") i
    vibration_rollstd := rollStdAt sqrtF (colSeries use e "vibration") i
    humidity_rollmean := rollMeanAt (colSeries use e "humid") i
    humidity_rollstd := rollStdAt sqrtF (colSeries use e "humid") i
    active_power_rollmean := rollMeanAt (colSeries use e "active_power") i
    active_power_rollstd := rollStdAt sqrtF (colSeries use e "active_power") i
    reactive_power_rollmean := rollMeanAt (colSeries use e "reactive_power") i
    reactive_power_rollstd := rollStdAt sqrtF (colSeries use e "reactive_power") i
    power_factor := powerFactorAt sqrtF use e h
    faulty := faultyAt use h e
    rul := rulAt use e h }

/-- `_prepare_training_df`.  An empty raw frame returns the empty table
(line 91‒93); a sensor of `num_cols` absent from the filtered data means
the pivot created no such column and `groupby("equipId")[col]` raises a
`KeyError` (line 128) which propagates out of the function — modelled as
`.error`. -/
def prepareTrainingDf (sqrtF : ℚ → ℚ) (raw : List RawRow) :
    Except String (List TrainRow) :=
  if raw = [] then .ok []
  else
    let use := usedRows raw
    if numColsRaw.all (fun s => (use.map (·.sensorType)).contains s) then
      .ok ((pairList use).map (fun p => mkTrainRow sqrtF use p.1 p.2))
    else .error "KeyError: sensor column missing after pivot"

/-! ## `_balance_rul` (retrain_service.py 213‒222)

`sampler` models `DataFrame.sample(frac=DOWN_RATIO_ZERO, random_state=42)`
(a seeded without-replacement subset — always a sublist up to order) and
`shuffler` models the final `sample(frac=1, random_state=42)` (a seeded
permutation).  `[tmp] * v` concatenation is `v` exact copies. -/

/-- One iteration of the oversampling loop: `tmp = df[df.rul == k]`,
appended as `pd.concat([tmp] * v)` when non-empty. -/
def oversBlock (df : List TrainRow) (kv : Nat × Nat) : List TrainRow :=
  let tmp := df.filter (fun r => r.rul = kv.1)
  if tmp = [] then [] else (List.replicate kv.2 tmp).flatten

def balanceRul (sampler shuffler : List TrainRow → List TrainRow)
    (df : List TrainRow) : List TrainRow :=
  let zeroDf := sampler (df.filter (fun r => r.rul = 0))
  let overs := ( OVER_RATIO.map (oversBlock df)).flatten
  shuffler (zeroDf ++ overs)

/-- A concrete deterministic stand-in for the seeded
`sample(frac=0.20)`: keep the first `⌊n/5⌋` rows.  Used only to
instantiate witnesses; the theorems are parametric in the sampler. -/
def takeFrac (l : List TrainRow) : List TrainRow :=
  l.take (l.length / 5)

/-! ## Metrics, latest-pointer fetch, upload, and `train_and_upload` -/

/-- Held-out evaluation metrics (`_train_model`'s return dict). -/
structure Metrics where
  rmse : ℚ
  mae : ℚ
  r2 : ℚ
deriving DecidableEq, Repr

/-- `models/latest/lgbm_regressor.json`. -/
def LATEST_MODEL_KEY : String := "models/latest/lgbm_regressor.json"

/-- `models/latest/metrics.json`. -/
def LATEST_METRIC_KEY : String := "models/latest/metrics.json"

/-- The possible outcomes of the S3 read inside `_fetch_latest_rmse`:
the object is missing (`NoSuchKey`), the read or the `json.loads` parse
fails with any other exception, or a metrics dict is obtained. -/
inductive FetchOutcome where
  | noSuchKey
  | errorOther (msg : String)
  | got (meta : List (String × ℚ))
deriving DecidableEq, Repr

/-- `_fetch_latest_rmse` (retrain_service.py 288‒298).  `none` in the
first component models `float("inf")`; on success the rmse is
`meta.get("rmse", float("inf"))`. -/
def fetchLatestRmse : FetchOutcome → Option ℚ × List (String × ℚ)
  | .got meta => (meta.lookup "rmse", meta)
  | .noSuchKey => (none, [])
  | .errorOther _ => (none, [])

/-- The promotion predicate of line 385:
`(metrics["rmse"] < old_rmse) and (metrics["r2"] >= MIN_R2)`, with
`old_rmse = +∞` (`none`) comparing greater than every finite rmse. -/
def promoteDecision (oldRmse : Option ℚ) (m : Metrics) : Bool :=
  (match oldRmse with
   | none => true
   | some r => decide (m.rmse < r)) && decide (MIN_R2 ≤ m.r2)

/-- The model bucket's key space (only `put_object` and the latest-key
reads are relevant; a key maps to its stored body). -/
def Store : Type := String → Option String

/-- Apply a list of `put_object` calls in order. -/
def applyPuts (store : Store) (puts : List (String × String)) : Store :=
  puts.foldl (fun st p => fun k => if k = p.1 then some p.2 else st k) store

/-- A readable serialization of the metrics dict (the body written by
`json.dumps(metrics)`); its exact shape is irrelevant to the claims. -/
def serializeMetrics (m : Metrics) : String :=
  "\x7b\"rmse\": " ++ toString m.rmse ++ ", \"mae\": " ++ toString m.mae ++
    ", \"r2\": " ++ toString m.r2 ++ "\x7d"

/-- `_upload` (retrain_service.py 301‒310): unconditionally write the two
version-history objects, then — only when `promote` — overwrite the two
`latest` references.  Returns the new store and the `put_object` calls
made, in order. -/
def upload (store : Store) (versionKey modelDump metricsJson : String)
    (promote : Bool) : Store × List (String × String) :=
  let puts :=
    [(versionKey ++ "/lgbm_regressor.json", modelDump),
     (versionKey ++ "/metrics.json", metricsJson)] ++
    (if promote then
      [(LATEST_MODEL_KEY, modelDump), (LATEST_METRIC_KEY, metricsJson)]
     else [])
  (applyPuts store puts, puts)

/-- The structured dicts returned by `train_and_upload`; `exn` marks an
exception propagating out of the function (e.g. the pivot `KeyError`). -/
inductive RetrainResult where
  | error (msg : String)
  | skip (reason : String) (rows : Nat)
  | trainError (reason : String) (msg : String)
  | ok (trainedOn : Nat) (metrics : Metrics) (promoted : Bool)
      (versionDir : String) (prevRmse : Option ℚ)
  | exn (msg : String)
deriving DecidableEq, Repr

/-- A full pipeline run: its returned dict, the final model-bucket
state, the `put_object` calls made, and whether `_train_model` ran. -/
structure RunOutcome where
  result : RetrainResult
  store : Store
  puts : List (String × String)
  trainCalled : Bool

/-- `train_and_upload` (retrain_service.py 318‒404).  External
collaborators are explicit parameters: `keys` is the S3 listing of the
requested date range, `raw` the concatenated NDJSON rows, `train` the
LightGBM fit + held-out evaluation (returning the dumped model and its
metrics, or raising), `fetch` the state of the latest-metrics object,
and `versionDir` the timestamp-derived version path. -/
def trainAndUpload (sqrtF : ℚ → ℚ)
    (sampler shuffler : List TrainRow → List TrainRow)
    (train : List TrainRow → Except String (String × Metrics))
    (fetch : FetchOutcome) (versionDir : String) (store : Store)
    (keys : List String) (raw : List RawRow) : RunOutcome :=
  if keys = [] then ⟨.error "no S3 data for prefix", store, [], false⟩
  else if raw = [] then ⟨.error "data load failed (empty df)", store, [], false⟩
  else
    match prepareTrainingDf sqrtF raw with
    | .error e => ⟨.exn e, store, [], false⟩
    | .ok wide =>
      if wide = [] then ⟨.error "preprocessing failed", store, [], false⟩
      else
        let balanced := balanceRul sampler shuffler wide
        if balanced.length < MIN_BALANCED_ROWS then
          ⟨.skip "too_few_rows" balanced.length, store, [], false⟩
        else
          match train balanced with
          | .error e => ⟨.trainError "train_failed" e, store, [], true⟩
          | .ok (dump, m) =>
            let fetched := fetchLatestRmse fetch
            let promote := promoteDecision fetched.1 m
            let up := upload store versionDir dump (serializeMetrics m) promote
            ⟨.ok balanced.length m promote versionDir fetched.1,
             up.1, up.2, true⟩

/-! ## Serving-side preprocessing (`data_service.preprocess_input_data`)

The serving table has dynamic columns (the pivot produces columns only
for sensors present in the input, step 7 of the source adds any missing
`FEATURE_COLS` entry as a constant-0 column), so a row is modelled as an
association list from column name to cell, `none` being `NaN`. -/

structure SReading where
  equipId : String
  sensorType : String
  val : ℚ
  time : Nat
deriving DecidableEq, Repr

structure PRow where
  equipment : String
  cells : List (String × Option ℚ)
deriving DecidableEq, Repr

/-- The `mapping` dict of step 3 (raw name → standardized name). -/
def mappingP : List (String × String) :=
  [("temp", "temperature"), ("humid", "humidity"),
   ("pressure", "pressure"), ("vibration", "vibration"),
   ("reactive_power", "reactive_power"), ("active_power", "active_power")]

def mappedName (s : String) : String := (mappingP.lookup s).getD s

def strLe (a b : String) : Bool := decide (a ≤ b)

/-- Step 1 sort order: `(equipId, sensorType, time)`. -/
def sLe (a b : SReading) : Bool :=
  if a.equipId = b.equipId then
    if a.sensorType = b.sensorType then decide (a.time ≤ b.time)
    else decide (a.sensorType < b.sensorType)
  else decide (a.equipId < b.equipId)

/-- The time-ordered value series of one `(equipId, sensorType)` group.
Rolling statistics are computed before the sensor-type filter in the
source, but the groups of kept sensors are unaffected by the filter, so
the series is taken from the filtered rows. -/
def sgroup (flt : List SReading) (e s : String) : List ℚ :=
  ((sortBy sLe flt).filter
    (fun r => r.equipId = e ∧ r.sensorType = s)).map (·.val)

def servWindow (gl : List ℚ) (i : Nat) : List ℚ :=
  (gl.take (i + 1)).drop (i + 1 - DOWNSTREAM_WIN)

/-- `rolling(window, min_periods=1).mean()` at index `i` (serving side:
every observation is present, so the window is never empty). -/
def servRollMean (gl : List ℚ) (i : Nat) : ℚ :=
  let w := servWindow gl i
  w.sum / w.length

/-- `rolling(window, min_periods=1).std()` at index `i`: the sample std
of a single observation is `NaN`. -/
def servRollStd (sqrtF : ℚ → ℚ) (gl : List ℚ) (i : Nat) : Option ℚ :=
  let w := servWindow gl i
  if 2 ≤ w.length then some (sqrtF (sampleVar w)) else none

/-- Step 4 group mean of `val`; `NaN` for an absent group (the pivot
cell of an equipment lacking the sensor). -/
def aggVal (flt : List SReading) (e s : String) : Option ℚ :=
  let gl := sgroup flt e s
  if gl.length = 0 then none else some (gl.sum / gl.length)

/-- Step 4 group mean of `val_rollmean`. -/
def aggRollMean (flt : List SReading) (e s : String) : Option ℚ :=
  let gl := sgroup flt e s
  if gl.length = 0 then none
  else some (((List.range gl.length).map (servRollMean gl)).sum / gl.length)

/-- Step 4 group mean of `val_rollstd` — pandas group means skip `NaN`,
and a group whose every rolling std is `NaN` (a single-reading sensor)
aggregates to `NaN`. -/
def aggRollStd (sqrtF : ℚ → ℚ) (flt : List SReading) (e s : String) : Option ℚ :=
  let vs := ((List.range (sgroup flt e s).length).map
    (servRollStd sqrtF (sgroup flt e s))).filterMap id
  if vs.length = 0 then none else some (vs.sum / vs.length)

/-- The flattened pivot column names (step 5/6 of the source), in the
source's `[val, val_rollmean, val_rollstd] × sensors` order. -/
def pivotCols (sensors : List String) : List String :=
  sensors.map mappedName ++
  sensors.map (fun s => mappedName s ++ "_rollmean") ++
  sensors.map (fun s => mappedName s ++ "_rollstd")

/-- The pivot cells of equipment `e` (paired with `pivotCols`). -/
def pivotCells (sqrtF : ℚ → ℚ) (flt : List SReading) (sensors : List String)
    (e : String) : List (String × Option ℚ) :=
  sensors.map (fun s => (mappedName s, aggVal flt e s)) ++
  sensors.map (fun s => (mappedName s ++ "_rollmean", aggRollMean flt e s)) ++
  sensors.map (fun s => (mappedName s ++ "_rollstd", aggRollStd sqrtF flt e s))

/-- Step 7: `for col in FEATURE_COLS: if col not in wide.columns:
wide[col] = 0` — the `equipment` column exists after the rename. -/
def missingCols (sensors : List String) : List String :=
  FEATURE_COLS.filter
    (fun c => ¬ (c = "equipment" ∨ (pivotCols sensors).contains c))

/-- Column write (`wide[col] = value`): replace if present else append. -/
def setCell (cells : List (String × Option ℚ)) (c : String) (v : Option ℚ) :
    List (String × Option ℚ) :=
  if (cells.map Prod.fst).contains c then
    cells.map (fun p => if p.1 = c then (c, v) else p)
  else cells ++ [(c, v)]

/-- Step 8: `power_factor = active_power / (active_power² +
reactive_power²)**0.5` then `.fillna(0)` — `NaN` inputs and `0/0`
become `0`. -/
def servPowerFactor (sqrtF : ℚ → ℚ) (ap rp : Option ℚ) : ℚ :=
  match ap, rp with
  | some a, some b => if a = 0 ∧ b = 0 then 0 else a / sqrtF (a ^ 2 + b ^ 2)
  | _, _ => 0

/-- Numeric serving columns, in `clean_cols` order (minus `equipment`). -/
def numFeatureCols : List String := FEATURE_COLS.filter (fun c => c ≠ "equipment")

/-- The row's cells after the pivot and the missing-column fill of
step 7. -/
def cleanCells2 (sqrtF : ℚ → ℚ) (flt : List SReading) (sensors : List String)
    (e : String) : List (String × Option ℚ) :=
  pivotCells sqrtF flt sensors e ++
    (missingCols sensors).map (fun c => (c, some (0 : ℚ)))

/-- The row's cells after the `power_factor` write of step 8. -/
def cleanCells3 (sqrtF : ℚ → ℚ) (flt : List SReading) (sensors : List String)
    (e : String) : List (String × Option ℚ) :=
  setCell (cleanCells2 sqrtF flt sensors e) "power_factor"
    (some (servPowerFactor sqrtF
      (((cleanCells2 sqrtF flt sensors e).lookup "active_power").getD none)
      (((cleanCells2 sqrtF flt sensors e).lookup "reactive_power").getD none)))

/-- Build the cleaned row of equipment `e`: pivot cells, missing-column
fill, `power_factor` write, then the `wide[clean_cols]` projection
(`none` models the `KeyError` of selecting an absent column). -/
def buildCleanRow (sqrtF : ℚ → ℚ) (flt : List SReading) (sensors : List String)
    (e : String) : Option PRow :=
  if numFeatureCols.all
      (fun c => ((cleanCells3 sqrtF flt sensors e).map Prod.fst).contains c) then
    some ⟨e, numFeatureCols.map
      (fun c => (c, ((cleanCells3 sqrtF flt sensors e).lookup c).getD none))⟩
  else none

/-- `preprocess_input_data` (data_service.py 115‒203): `None` on empty
input, otherwise one cleaned row per equipment (pivot index order). -/
def preprocessInputData (sqrtF : ℚ → ℚ) (rows : List SReading) :
    Option (List PRow) :=
  if rows = [] then none
  else
    let flt := rows.filter (fun r => (mappingP.map Prod.fst).contains r.sensorType)
    let sensors := sortBy strLe ((flt.map (·.sensorType)).dedup)
    let equips := sortBy strLe ((flt.map (·.equipId)).dedup)
    mapOpt (fun e => buildCleanRow sqrtF flt sensors e) equips

/-! ## Serving-side model cache (`model_service.py`)

The process state is the module-level `_model : Optional[lgb.Booster]`,
modelled as `Option B` for an opaque booster type `B`.  The storage and
configuration environment is explicit; the `Bool` in each return is
whether an S3 fetch was issued. -/

structure ServeEnv (B : Type) where
  bucketSet : Bool
  keySet : Bool
  fetch : Except String B

/-- `_load_model_from_s3`: returns the (possibly updated) `_model` and
whether a fetch was issued.  A cached model short-circuits; missing
configuration or any `ClientError`/exception leaves `_model = None`. -/
def loadModelFromS3 {B : Type} (st : Option B) (env : ServeEnv B) :
    Option B × Bool :=
  match st with
  | some b => (some b, false)
  | none =>
    if ¬ (env.bucketSet && env.keySet) then (none, false)
    else
      match env.fetch with
      | .ok b => (some b, true)
      | .error _ => (none, true)

/-- `get_model`: load on a cache miss, then return the cache. -/
def getModelS {B : Type} (st : Option B) (env : ServeEnv B) : Option B × Bool :=
  match st with
  | some b => (some b, false)
  | none => loadModelFromS3 none env

/-- `is_ready`. -/
def isReadyS {B : Type} (st : Option B) (env : ServeEnv B) : Bool × Bool :=
  let r := getModelS st env
  (r.1.isSome, r.2)

/-- `predict`'s outcome: `raised` models an exception escaping the
function (the un-guarded `df_wide[num_cols]` column selection),
`returned none` the `return None` failure paths. -/
inductive PredictOutcome where
  | raised (msg : String)
  | returned (v : Option (List ℚ))
deriving DecidableEq, Repr

/-- `X = df_wide[num_cols].fillna(0); X["equipment"] = df_wide["equipment"]`
(`none` = a missing feature column raises `KeyError`). -/
def buildX (df : List PRow) : Option (List PRow) :=
  mapOpt (fun r =>
    if numFeatureCols.all (fun c => (r.cells.map Prod.fst).contains c) then
      some ⟨r.equipment,
        numFeatureCols.map (fun c =>
          (c, some (((r.cells.lookup c).getD none).getD 0)))⟩
    else none) df

/-- `predict` (model_service.py 108‒145): obtain the cached model (a
cache miss loads from S3), bail out on a missing model or empty input,
assemble the feature frame, and call the booster (`po`), returning
`None` when the booster raises. -/
def predictS {B : Type} (st : Option B) (env : ServeEnv B)
    (po : B → List PRow → Except String (List ℚ)) (df : List PRow) :
    PredictOutcome × Option B × Bool :=
  let r := getModelS st env
  match r.1 with
  | none => (.returned none, none, r.2)
  | some bm =>
    if df.isEmpty then (.returned none, some bm, r.2)
    else
      match buildX df with
      | none => (.raised "KeyError: missing feature column", some bm, r.2)
      | some x =>
        match po bm x with
        | .ok ys => (.returned (some ys), some bm, r.2)
        | .error _ => (.returned none, some bm, r.2)

/-! ## Concrete instantiations used by the witnesses -/

/-- The wide table of a successful preprocessing run. -/
def prepOk (sqrtF : ℚ → ℚ) (raw : List RawRow) : List TrainRow :=
  match prepareTrainingDf sqrtF raw with
  | .ok w => w
  | .error _ => []

/-- A trivial stand-in for the square root (none of the verified
properties depend on its values). -/
def zeroSqrt : ℚ → ℚ := fun _ => 0

/-- One hour of in-range readings of all six sensors for one equipment:
preprocessing yields a single non-faulty wide row with `rul = 30`, and
balancing yields the empty frame. -/
def demoSmall : List RawRow :=
  [⟨0, "E1", "temp", 50⟩, ⟨0, "E1", "humid", 50⟩, ⟨0, "E1", "pressure", 10⟩,
   ⟨0, "E1", "vibration", 1⟩, ⟨0, "E1", "active_power", 100⟩,
   ⟨0, "E1", "reactive_power", 100⟩]

/-- A 32-hour single-equipment timeline with two fault hours (15 and 31,
each with two out-of-range readings): the RUL labels run 15‥0 twice and
the balanced frame has 446 rows. -/
def demoRaw : List RawRow :=
  [⟨0, "E1", "temp", 50⟩, ⟨0, "E1", "humid", 50⟩, ⟨0, "E1", "pressure", 10⟩,
   ⟨0, "E1", "vibration", 1⟩, ⟨0, "E1", "active_power", 100⟩,
   ⟨0, "E1", "reactive_power", 100⟩] ++
  ((List.range 32).drop 1).filterMap (fun h =>
    if h = 15 ∨ h = 31 then none
    else some ⟨3600 * h, "E1", "pressure", 10⟩) ++
  [⟨3600 * 15, "E1", "pressure", 100⟩, ⟨3600 * 15, "E1", "vibration", 10⟩,
   ⟨3600 * 31, "E1", "pressure", 100⟩, ⟨3600 * 31, "E1", "vibration", 10⟩]

/-- Metrics of a demo training run (r2 = 1/2 ≥ MIN_R2). -/
def demoMetrics : Metrics := ⟨2, 1, Rat.divInt 1 2⟩

/-- A training oracle that succeeds with `demoMetrics`. -/
def demoTrain : List TrainRow → Except String (String × Metrics) :=
  fun _ => .ok ("model-dump", demoMetrics)

/-- A training oracle that raises. -/
def demoTrainFail : List TrainRow → Except String (String × Metrics) :=
  fun _ => .error "boom"

/-- An empty model bucket. -/
def emptyStore : Store := fun _ => none

/-- A single wide row with `rul = 20` (a label strictly above 15). -/
def demoRow20 : TrainRow :=
  { timestamp := 0, equipment := "E1",
    temperature := some 50, pressure := some 10, vibration := some 1,
    humidity := some 50, active_power := some 100, reactive_power := some 100,
    temperature_rollmean := some 50, temperature_rollstd := 0,
    pressure_rollmean := some 10, pressure_rollstd := 0,
    vibration_rollmean := some 1, vibration_rollstd := 0,
    humidity_rollmean := some 50, humidity_rollstd := 0,
    active_power_rollmean := some 100, active_power_rollstd := 0,
    reactive_power_rollmean := some 100, reactive_power_rollstd := 0,
    power_factor := 0, faulty := false, rul := 20 }

/-- A single serving-side reading (sensor `temp`, one observation). -/
def demoReading : SReading := ⟨"E1", "temp", 5, 0⟩

/-! # Theorems

## C2 — backward RUL computation -/

theorem addRul_length (fs : List Bool) : (addRul fs).length = fs.length := by
  induction fs with
  | nil => rfl
  | cons b t ih => simp [addRul, ih]

theorem rulLabels_length (fs : List Bool) : (rulLabels fs).length = fs.length := by
  simp [rulLabels, addRul_length]

theorem rulLabels_getD (fs : List Bool) (i : Nat) (hi : i < fs.length) :
    (rulLabels fs).getD i 0 =
      min (((addRul fs).getD i none).getD MAX_RUL) MAX_RUL := by
  have hi' : i < (addRul fs).length := by rw [addRul_length]; exact hi
  simp [rulLabels, List.getD_eq_getElem?_getD, List.getElem?_map,
    List.getElem?_eq_getElem hi']

theorem addRul_getD_faulty (fs : List Bool) (i : Nat) (hi : i < fs.length)
    (hf : fs.getD i false = true) : (addRul fs).getD i none = some 0 := by
  induction fs generalizing i with
  | nil => simp at hi
  | cons b t ih =>
    match i with
    | 0 => simp_all [addRul]
    | j + 1 =>
      have hj : j < t.length := by simpa using hi
      simpa [addRul] using ih j hj (by simpa using hf)

theorem addRul_getD_nonfaulty (fs : List Bool) (i : Nat)
    (hi : i + 1 < fs.length) (hf : fs.getD i false = false) :
    (addRul fs).getD i none = ((addRul fs).getD (i + 1) none).map (· + 1) := by
  induction fs generalizing i with
  | nil => simp at hi
  | cons b t ih =>
    match i with
    | 0 =>
      have hb : b = false := by simpa using hf
      subst hb
      have : (addRul (false :: t)).getD 1 none = (addRul t).getD 0 none := by
        simp [addRul]
      rw [this]
      cases h : addRul t with
      | nil => simp [addRul, h]
      | cons x xs => simp [addRul, h]
    | j + 1 =>
      have hj : j + 1 < t.length := by simpa using hi
      simpa [addRul] using ih j hj (by simpa using hf)

theorem addRul_getD_none_of_all_false (fs : List Bool) (i : Nat)
    (hall : ∀ j, j < fs.length → fs.getD j false = false) :
    (addRul fs).getD i none = none := by
  induction fs generalizing i with
  | nil => cases i <;> simp [addRul]
  | cons b t ih =>
    have hb : b = false := by simpa using hall 0 (by simp)
    subst hb
    match i with
    | 0 =>
      cases h : addRul t with
      | nil => simp [addRul, h]
      | cons x xs =>
        have hx : (addRul t).getD 0 none = none := by
          apply ih
          intro j hj
          simpa using hall (j + 1) (by simpa using hj)
        simp [h] at hx
        simp [addRul, h, hx]
    | j + 1 =>
      have : (addRul (false :: t)).getD (j + 1) none = (addRul t).getD j none := by
        simp [addRul]
      rw [this]
      apply ih
      intro j' hj'
      simpa using hall (j' + 1) (by simpa using hj')

/-- **C2.** For each equipment timeline of 0/1 faulty flags, the RUL
labels of `_add_rul` + `fillna(MAX_RUL).clip(upper=MAX_RUL)` satisfy:
a faulty row gets 0; a non-faulty row's raw value is the following row's
raw value plus one (undefined propagating), and after fill/clip it
equals `min (next + 1) MAX_RUL`; a row whose raw value is undefined
(after the last observed fault) is filled with `MAX_RUL`; every label is
at most `MAX_RUL`; a timeline with no faulty hour is labelled `MAX_RUL`
throughout and an everywhere-faulty timeline is labelled 0 throughout. -/
theorem c2_rul_labels (fs : List Bool) (i : Nat) (hi : i < fs.length) :
    (rulLabels fs).length = fs.length ∧
    (fs.getD i false = true → (rulLabels fs).getD i 0 = 0) ∧
    (fs.getD i false = false → i + 1 < fs.length →
      (addRul fs).getD i none = ((addRul fs).getD (i + 1) none).map (· + 1) ∧
      (rulLabels fs).getD i 0 =
        min ((rulLabels fs).getD (i + 1) 0 + 1) MAX_RUL) ∧
    ((addRul fs).getD i none = none → (rulLabels fs).getD i 0 = MAX_RUL) ∧
    (rulLabels fs).getD i 0 ≤ MAX_RUL ∧
    ((∀ j, j < fs.length → fs.getD j false = false) →
      (rulLabels fs).getD i 0 = MAX_RUL) ∧
    ((∀ j, j < fs.length → fs.getD j false = true) →
      (rulLabels fs).getD i 0 = 0) := by
  refine ⟨rulLabels_length fs, ?_, ?_, ?_, ?_, ?_, ?_⟩
  · intro hf
    rw [rulLabels_getD fs i hi, addRul_getD_faulty fs i hi hf]
    simp [MAX_RUL]
  · intro hf hi1
    refine ⟨addRul_getD_nonfaulty fs i hi1 hf, ?_⟩
    rw [rulLabels_getD fs i hi, rulLabels_getD fs (i + 1) hi1,
      addRul_getD_nonfaulty fs i hi1 hf]
    cases h : (addRul fs).getD (i + 1) none with
    | none => simp [MAX_RUL]
    | some v => simp [MAX_RUL]; omega
  · intro hn
    rw [rulLabels_getD fs i hi, hn]
    simp
  · rw [rulLabels_getD fs i hi]
    exact min_le_right _ _
  · intro hall
    rw [rulLabels_getD fs i hi, addRul_getD_none_of_all_false fs i hall]
    simp
  · intro hall
    rw [rulLabels_getD fs i hi, addRul_getD_faulty fs i hi (hall i hi)]
    simp [MAX_RUL]

/-- Witness for C2 at the concrete timeline `[false, false, true, false]`
(labels `[2, 1, 0, 30]`). -/
theorem c2_rul_labels_witness :
    (rulLabels [false, false, true, false]).getD 2 0 = 0 ∧
    (rulLabels [false, false, true, false]).getD 1 0 =
      min ((rulLabels [false, false, true, false]).getD 2 0 + 1) MAX_RUL ∧
    (rulLabels [false, false, true, false]).getD 3 0 = MAX_RUL :=
  ⟨(c2_rul_labels [false, false, true, false] 2 (by decide)).2.1 (by decide),
   ((c2_rul_labels [false, false, true, false] 1 (by decide)).2.2.1
     (by decide) (by decide)).2,
   (c2_rul_labels [false, false, true, false] 3 (by decide)).2.2.2.1
     (by decide)⟩

/-! ## C1 / C6 / C7 — the `train_and_upload` pipeline -/

theorem prepOk_spec (sqrtF : ℚ → ℚ) (raw : List RawRow)
    (hw : (prepareTrainingDf sqrtF raw).isOk = true) :
    prepareTrainingDf sqrtF raw = .ok (prepOk sqrtF raw) := by
  cases h : prepareTrainingDf sqrtF raw with
  | error e => rw [h] at hw; simp [Except.isOk, Except.toBool] at hw
  | ok w => simp [prepOk, h]

/-- **C1.** When the pipeline reaches a completed training step with
metrics `m`, the run result is `ok`, the promotion flag is
`promoteDecision old m`, which is true iff the new rmse is strictly
below the previously recorded rmse (with a missing previous rmse
treated as `+∞`, reducing the gate to the R² floor alone) and the new
R² is at least `MIN_R2`; and the two `latest` references are
overwritten iff that flag is true. -/
theorem c1_promotion (sqrtF : ℚ → ℚ)
    (sampler shuffler : List TrainRow → List TrainRow)
    (train : List TrainRow → Except String (String × Metrics))
    (fetch : FetchOutcome) (versionDir : String) (store : Store)
    (keys : List String) (raw : List RawRow)
    (hk : keys ≠ []) (hr : raw ≠ [])
    (hw : (prepareTrainingDf sqrtF raw).isOk = true)
    (hne : prepOk sqrtF raw ≠ [])
    (hlen : ¬ (balanceRul sampler shuffler (prepOk sqrtF raw)).length <
      MIN_BALANCED_ROWS)
    (dump : String) (m : Metrics)
    (ht : train (balanceRul sampler shuffler (prepOk sqrtF raw)) =
      .ok (dump, m))
    (hv1 : versionDir ++ "/lgbm_regressor.json" ≠ LATEST_MODEL_KEY)
    (hv2 : versionDir ++ "/metrics.json" ≠ LATEST_METRIC_KEY)
    (hv3 : versionDir ++ "/metrics.json" ≠ LATEST_MODEL_KEY)
    (hv4 : versionDir ++ "/lgbm_regressor.json" ≠ LATEST_METRIC_KEY) :
    (trainAndUpload sqrtF sampler shuffler train fetch versionDir store
        keys raw).result =
      .ok (balanceRul sampler shuffler (prepOk sqrtF raw)).length m
        (promoteDecision (fetchLatestRmse fetch).1 m) versionDir
        (fetchLatestRmse fetch).1 ∧
    (promoteDecision (fetchLatestRmse fetch).1 m = true ↔
      (match (fetchLatestRmse fetch).1 with
       | some r => m.rmse < r ∧ MIN_R2 ≤ m.r2
       | none => MIN_R2 ≤ m.r2)) ∧
    (trainAndUpload sqrtF sampler shuffler train fetch versionDir store
        keys raw).store LATEST_MODEL_KEY =
      (if promoteDecision (fetchLatestRmse fetch).1 m then some dump
       else store LATEST_MODEL_KEY) ∧
    (trainAndUpload sqrtF sampler shuffler train fetch versionDir store
        keys raw).store LATEST_METRIC_KEY =
      (if promoteDecision (fetchLatestRmse fetch).1 m then
        some (serializeMetrics m)
       else store LATEST_METRIC_KEY) ∧
    (trainAndUpload sqrtF sampler shuffler train fetch versionDir store
        keys raw).trainCalled = true := by
  have hp := prepOk_spec sqrtF raw hw
  have hrun : trainAndUpload sqrtF sampler shuffler train fetch versionDir
      store keys raw =
      ⟨.ok (balanceRul sampler shuffler (prepOk sqrtF raw)).length m
         (promoteDecision (fetchLatestRmse fetch).1 m) versionDir
         (fetchLatestRmse fetch).1,
       (upload store versionDir dump (serializeMetrics m)
         (promoteDecision (fetchLatestRmse fetch).1 m)).1,
       (upload store versionDir dump (serializeMetrics m)
         (promoteDecision (fetchLatestRmse fetch).1 m)).2, true⟩ := by
    unfold trainAndUpload
    simp [hk, hr, hp, hne, hlen, ht]
  refine ⟨by rw [hrun], ?_, ?_, ?_, by rw [hrun]⟩
  · cases ho : (fetchLatestRmse fetch).1 with
    | none => simp [promoteDecision, ho]
    | some r => simp [promoteDecision, ho, Bool.and_eq_true]
  · rw [hrun]
    cases hpd : promoteDecision (fetchLatestRmse fetch).1 m with
    | false =>
      simp only [upload, if_neg Bool.false_ne_true, List.append_nil,
        applyPuts, List.foldl]
      rw [if_neg (fun h => hv3 h.symm), if_neg (fun h => hv1 h.symm)]
    | true =>
      simp only [upload, if_pos rfl, applyPuts, List.foldl]
      simp [LATEST_MODEL_KEY, LATEST_METRIC_KEY]
  · rw [hrun]
    cases hpd : promoteDecision (fetchLatestRmse fetch).1 m with
    | false =>
      simp only [upload, if_neg Bool.false_ne_true, List.append_nil,
        applyPuts, List.foldl]
      rw [if_neg (fun h => hv2 h.symm), if_neg (fun h => hv4 h.symm)]
    | true =>
      simp only [upload, if_pos rfl, applyPuts, List.foldl]
      simp

set_option maxRecDepth 200000 in
unseal Rat.add Rat.sub Rat.mul Rat.inv in
/-- Witness for C1: a first run (no latest metrics stored) on the
32-hour demo timeline; training succeeds with R² = 1/2 ≥ MIN_R2, so the
run is promoted and both latest references are written. -/
theorem c1_promotion_witness :
    (trainAndUpload zeroSqrt takeFrac id demoTrain .noSuchKey
        "models/2025/10/12/000000" emptyStore ["k.json"] demoRaw).result =
      .ok (balanceRul takeFrac id (prepOk zeroSqrt demoRaw)).length
        demoMetrics
        (promoteDecision (fetchLatestRmse .noSuchKey).1 demoMetrics)
        "models/2025/10/12/000000" (fetchLatestRmse .noSuchKey).1 ∧
    (promoteDecision (fetchLatestRmse .noSuchKey).1 demoMetrics = true ↔
      (match (fetchLatestRmse .noSuchKey).1 with
       | some r => demoMetrics.rmse < r ∧ MIN_R2 ≤ demoMetrics.r2
       | none => MIN_R2 ≤ demoMetrics.r2)) ∧
    (trainAndUpload zeroSqrt takeFrac id demoTrain .noSuchKey
        "models/2025/10/12/000000" emptyStore ["k.json"] demoRaw).store
        LATEST_MODEL_KEY =
      (if promoteDecision (fetchLatestRmse .noSuchKey).1 demoMetrics then
        some "model-dump"
       else emptyStore LATEST_MODEL_KEY) ∧
    (trainAndUpload zeroSqrt takeFrac id demoTrain .noSuchKey
        "models/2025/10/12/000000" emptyStore ["k.json"] demoRaw).store
        LATEST_METRIC_KEY =
      (if promoteDecision (fetchLatestRmse .noSuchKey).1 demoMetrics then
        some (serializeMetrics demoMetrics)
       else emptyStore LATEST_METRIC_KEY) ∧
    (trainAndUpload zeroSqrt takeFrac id demoTrain .noSuchKey
        "models/2025/10/12/000000" emptyStore ["k.json"] demoRaw).trainCalled
      = true :=
  c1_promotion zeroSqrt takeFrac id demoTrain .noSuchKey
    "models/2025/10/12/000000" emptyStore ["k.json"] demoRaw
    (by decide) (by decide) (by decide) (by decide) (by decide)
    "model-dump" demoMetrics rfl (by decide) (by decide) (by decide)
    (by decide)

/-- **C6.** A run whose balanced dataset has fewer rows than
`MIN_BALANCED_ROWS` returns the structured skip result
`{status: "skip", reason: "too_few_rows", rows: n}` with the balanced
row count, performs no training call, and writes nothing. -/
theorem c6_skip_too_few_rows (sqrtF : ℚ → ℚ)
    (sampler shuffler : List TrainRow → List TrainRow)
    (train : List TrainRow → Except String (String × Metrics))
    (fetch : FetchOutcome) (versionDir : String) (store : Store)
    (keys : List String) (raw : List RawRow)
    (hk : keys ≠ []) (hr : raw ≠ [])
    (hw : (prepareTrainingDf sqrtF raw).isOk = true)
    (hne : prepOk sqrtF raw ≠ [])
    (hlen : (balanceRul sampler shuffler (prepOk sqrtF raw)).length <
      MIN_BALANCED_ROWS) :
    (trainAndUpload sqrtF sampler shuffler train fetch versionDir store
        keys raw).result =
      .skip "too_few_rows"
        (balanceRul sampler shuffler (prepOk sqrtF raw)).length ∧
    (trainAndUpload sqrtF sampler shuffler train fetch versionDir store
        keys raw).trainCalled = false ∧
    (trainAndUpload sqrtF sampler shuffler train fetch versionDir store
        keys raw).puts = [] ∧
    (trainAndUpload sqrtF sampler shuffler train fetch versionDir store
        keys raw).store = store := by
  have hp := prepOk_spec sqrtF raw hw
  have hrun : trainAndUpload sqrtF sampler shuffler train fetch versionDir
      store keys raw =
      ⟨.skip "too_few_rows"
         (balanceRul sampler shuffler (prepOk sqrtF raw)).length,
       store, [], false⟩ := by
    unfold trainAndUpload
    simp [hk, hr, hp, hne, hlen]
  exact ⟨by rw [hrun], by rw [hrun], by rw [hrun], by rw [hrun]⟩

set_option maxRecDepth 200000 in
unseal Rat.add Rat.sub Rat.mul Rat.inv in
/-- Witness for C6: one in-range hour of all six sensors yields a
single wide row with `rul = 30`, which balancing empties — `0 < 300`,
so the run is skipped with no training call. -/
theorem c6_skip_too_few_rows_witness :
    (trainAndUpload zeroSqrt takeFrac id demoTrain .noSuchKey
        "models/2025/10/12/000000" emptyStore ["k.json"] demoSmall).result =
      .skip "too_few_rows"
        (balanceRul takeFrac id (prepOk zeroSqrt demoSmall)).length ∧
    (trainAndUpload zeroSqrt takeFrac id demoTrain .noSuchKey
        "models/2025/10/12/000000" emptyStore ["k.json"] demoSmall).trainCalled
      = false ∧
    (trainAndUpload zeroSqrt takeFrac id demoTrain .noSuchKey
        "models/2025/10/12/000000" emptyStore ["k.json"] demoSmall).puts
      = [] ∧
    (trainAndUpload zeroSqrt takeFrac id demoTrain .noSuchKey
        "models/2025/10/12/000000" emptyStore ["k.json"] demoSmall).store
      = emptyStore :=
  c6_skip_too_few_rows zeroSqrt takeFrac id demoTrain .noSuchKey
    "models/2025/10/12/000000" emptyStore ["k.json"] demoSmall
    (by decide) (by decide) (by decide) (by decide) (by decide)

/-- **C7.** A run in which `_train_model` raises is caught: the result
is `{status: "error", reason: "train_failed", msg: e}` rather than a
propagating exception, and neither the version-history objects nor the
`latest` references are written (the upload step is never reached). -/
theorem c7_train_failure (sqrtF : ℚ → ℚ)
    (sampler shuffler : List TrainRow → List TrainRow)
    (train : List TrainRow → Except String (String × Metrics))
    (fetch : FetchOutcome) (versionDir : String) (store : Store)
    (keys : List String) (raw : List RawRow)
    (hk : keys ≠ []) (hr : raw ≠ [])
    (hw : (prepareTrainingDf sqrtF raw).isOk = true)
    (hne : prepOk sqrtF raw ≠ [])
    (hlen : ¬ (balanceRul sampler shuffler (prepOk sqrtF raw)).length <
      MIN_BALANCED_ROWS)
    (emsg : String)
    (ht : train (balanceRul sampler shuffler (prepOk sqrtF raw)) =
      .error emsg) :
    (trainAndUpload sqrtF sampler shuffler train fetch versionDir store
        keys raw).result = .trainError "train_failed" emsg ∧
    (trainAndUpload sqrtF sampler shuffler train fetch versionDir store
        keys raw).puts = [] ∧
    (trainAndUpload sqrtF sampler shuffler train fetch versionDir store
        keys raw).store = store ∧
    (trainAndUpload sqrtF sampler shuffler train fetch versionDir store
        keys raw).trainCalled = true := by
  have hp := prepOk_spec sqrtF raw hw
  have hrun : trainAndUpload sqrtF sampler shuffler train fetch versionDir
      store keys raw =
      ⟨.trainError "train_failed" emsg, store, [], true⟩ := by
    unfold trainAndUpload
    simp [hk, hr, hp, hne, hlen, ht]
  exact ⟨by rw [hrun], by rw [hrun], by rw [hrun], by rw [hrun]⟩

set_option maxRecDepth 200000 in
unseal Rat.add Rat.sub Rat.mul Rat.inv in
/-- Witness for C7 on the 32-hour demo timeline (446 balanced rows) with
a failing training oracle. -/
theorem c7_train_failure_witness :
    (trainAndUpload zeroSqrt takeFrac id demoTrainFail .noSuchKey
        "models/2025/10/12/000000" emptyStore ["k.json"] demoRaw).result =
      .trainError "train_failed" "boom" ∧
    (trainAndUpload zeroSqrt takeFrac id demoTrainFail .noSuchKey
        "models/2025/10/12/000000" emptyStore ["k.json"] demoRaw).puts = [] ∧
    (trainAndUpload zeroSqrt takeFrac id demoTrainFail .noSuchKey
        "models/2025/10/12/000000" emptyStore ["k.json"] demoRaw).store
      = emptyStore ∧
    (trainAndUpload zeroSqrt takeFrac id demoTrainFail .noSuchKey
        "models/2025/10/12/000000" emptyStore ["k.json"] demoRaw).trainCalled
      = true :=
  c7_train_failure zeroSqrt takeFrac id demoTrainFail .noSuchKey
    "models/2025/10/12/000000" emptyStore ["k.json"] demoRaw
    (by decide) (by decide) (by decide) (by decide) (by decide) "boom" rfl

/-! ## C3 — the class balancer drops high-RUL rows -/

theorem count_flatten_replicate (v : Nat) (l : List TrainRow) (r : TrainRow) :
    ((List.replicate v l).flatten).count r = v * l.count r := by
  induction v with
  | zero => simp
  | succ n ih =>
    simp [List.replicate_succ, ih]
    ring

theorem count_oversBlock (df : List TrainRow) (kv : Nat × Nat) (r : TrainRow) :
    (oversBlock df kv).count r =
      if kv.1 = r.rul then kv.2 * df.count r else 0 := by
  unfold oversBlock
  by_cases hk : kv.1 = r.rul
  · rw [if_pos hk]
    have hcf : (df.filter (fun x => x.rul = kv.1)).count r = df.count r :=
      List.count_filter (by simp [hk])
    by_cases he : df.filter (fun x => x.rul = kv.1) = []
    · rw [he] at hcf
      simp [he, ← hcf]
    · rw [if_neg he, count_flatten_replicate, hcf]
  · rw [if_neg hk]
    have hnm : r ∉ df.filter (fun x => x.rul = kv.1) := by
      intro hmem
      have := List.of_mem_filter hmem
      simp at this
      exact hk this.symm
    by_cases he : df.filter (fun x => x.rul = kv.1) = []
    · simp [he]
    · rw [if_neg he, count_flatten_replicate]
      simp [List.count_eq_zero_of_not_mem hnm]

theorem lookup_none_of_not_mem_keys (tbl : List (Nat × Nat)) (k : Nat)
    (h : k ∉ tbl.map Prod.fst) : tbl.lookup k = none := by
  induction tbl with
  | nil => rfl
  | cons kv t ih =>
    rw [List.map_cons] at h
    have h1 : k ≠ kv.1 := fun he => h (he ▸ List.mem_cons_self _ _)
    have h2 : k ∉ t.map Prod.fst := fun hm => h (List.mem_cons_of_mem _ hm)
    have hbeq : (k == kv.1) = false := beq_eq_false_iff_ne.mpr h1
    simp [List.lookup, hbeq, ih h2]

theorem count_overs_lookup_none (tbl : List (Nat × Nat)) (df : List TrainRow)
    (r : TrainRow) (h : tbl.lookup r.rul = none) :
    ((tbl.map (oversBlock df)).flatten).count r = 0 := by
  induction tbl with
  | nil => simp
  | cons kv t ih =>
    cases hbeq : (r.rul == kv.1) with
    | true =>
      rw [List.lookup, hbeq] at h
      simp at h
    | false =>
      rw [List.lookup, hbeq] at h
      have hk : kv.1 ≠ r.rul := fun he => by
        rw [beq_eq_false_iff_ne] at hbeq
        exact hbeq he.symm
      simp [count_oversBlock, hk, ih h]

theorem count_overs_lookup_some (tbl : List (Nat × Nat)) (df : List TrainRow)
    (r : TrainRow) (v : Nat) (hnd : (tbl.map Prod.fst).Nodup)
    (hv : tbl.lookup r.rul = some v) :
    ((tbl.map (oversBlock df)).flatten).count r = v * df.count r := by
  induction tbl with
  | nil => simp [List.lookup] at hv
  | cons kv t ih =>
    cases hbeq : (r.rul == kv.1) with
    | true =>
      have hk : kv.1 = r.rul := (by simpa using hbeq : r.rul = kv.1).symm
      rw [List.lookup, hbeq] at hv
      simp at hv
      have hnd2 : (kv.1 :: t.map Prod.fst).Nodup := by
        rw [List.map_cons] at hnd
        exact hnd
      have hkeys : kv.1 ∉ t.map Prod.fst := (List.nodup_cons.mp hnd2).1
      have hrest : t.lookup r.rul = none :=
        lookup_none_of_not_mem_keys t r.rul (hk ▸ hkeys)
      have hzero := count_overs_lookup_none t df r hrest
      simp only [List.map_cons, List.flatten_cons, List.count_append,
        count_oversBlock, if_pos hk, hzero, Nat.add_zero, hv]
    | false =>
      have hk : kv.1 ≠ r.rul := fun he => by
        rw [beq_eq_false_iff_ne] at hbeq
        exact hbeq he.symm
      rw [List.lookup, hbeq] at hv
      have hnd2 : (kv.1 :: t.map Prod.fst).Nodup := by
        rw [List.map_cons] at hnd
        exact hnd
      simp [count_oversBlock, hk, ih (List.nodup_cons.mp hnd2).2 hv]

/-- **C3 counterexample.** A single input row with `rul = 20` (strictly
above 15 and non-zero) does *not* appear exactly once in the balancer's
output: `_balance_rul` concatenates only the downsampled `rul == 0`
rows and the oversampled `rul ∈ 1‥15` rows, so the row is dropped. -/
theorem c3_counterexample :
    15 < demoRow20.rul ∧ demoRow20.rul ≠ 0 ∧
    (balanceRul takeFrac id [demoRow20]).count demoRow20 = 0 ∧
    balanceRul takeFrac id [demoRow20] = [] := by decide

/-- **C3 (amended).** Rows with `rul` strictly above 15 are dropped by
the balancer (they appear zero times in the output, not once); each row
with a `rul` listed in the oversampling table appears exactly
`OVER_RATIO[rul]` times per input occurrence; and `rul = 0` rows are
only downsampled (their output multiplicity never exceeds their input
multiplicity).  Parametric over the seeded subset sampler and the
seeded shuffle permutation. -/
theorem c3_high_rul_dropped (sampler shuffler : List TrainRow → List TrainRow)
    (hs : ∀ l, (sampler l).Sublist l) (hp : ∀ l, (shuffler l).Perm l)
    (df : List TrainRow) (r : TrainRow) :
    (15 < r.rul → (balanceRul sampler shuffler df).count r = 0) ∧
    (∀ v, OVER_RATIO.lookup r.rul = some v →
      (balanceRul sampler shuffler df).count r = v * df.count r) ∧
    (r.rul = 0 →
      (balanceRul sampler shuffler df).count r ≤ df.count r) := by
  have hcount : (balanceRul sampler shuffler df).count r =
      (sampler (df.filter (fun x => x.rul = 0))).count r +
      ((( OVER_RATIO.map (oversBlock df))).flatten).count r := by
    unfold balanceRul
    rw [(hp _).count_eq, List.count_append]
  have hzero_of_ne : r.rul ≠ 0 →
      (sampler (df.filter (fun x => x.rul = 0))).count r = 0 := by
    intro hne
    have hnm : r ∉ df.filter (fun x => x.rul = 0) := by
      intro hmem
      have := List.of_mem_filter hmem
      simp at this
      exact hne this
    exact Nat.le_zero.mp
      ((hs _).count_le r |>.trans
        (le_of_eq (List.count_eq_zero_of_not_mem hnm)))
  refine ⟨?_, ?_, ?_⟩
  · intro hgt
    have hne : r.rul ≠ 0 := by omega
    have hlk : OVER_RATIO.lookup r.rul = none := by
      apply lookup_none_of_not_mem_keys
      simp [ OVER_RATIO]
      omega
    rw [hcount, hzero_of_ne hne, count_overs_lookup_none _ _ _ hlk]
  · intro v hv
    have hne : r.rul ≠ 0 := by
      intro h0
      rw [h0] at hv
      have hn : OVER_RATIO.lookup 0 = none := by decide
      rw [hn] at hv
      exact Option.noConfusion hv
    rw [hcount, hzero_of_ne hne,
      count_overs_lookup_some _ df r v (by decide) hv]
    simp
  · intro h0
    have hlk : OVER_RATIO.lookup r.rul = none := by
      rw [h0]
      decide
    rw [hcount, count_overs_lookup_none _ _ _ hlk, Nat.add_zero]
    exact ((hs _).count_le r).trans
      (le_of_eq (List.count_filter (by simp [h0])))

/-- Witness for the amended C3: a `rul = 1` row is tripled
(`OVER_RATIO[1] = 3`). -/
theorem c3_high_rul_dropped_witness :
    (15 < ({ demoRow20 with rul := 1 } : TrainRow).rul →
      (balanceRul takeFrac id [{ demoRow20 with rul := 1 }]).count
        { demoRow20 with rul := 1 } = 0) ∧
    (∀ v, OVER_RATIO.lookup ({ demoRow20 with rul := 1 } : TrainRow).rul =
        some v →
      (balanceRul takeFrac id [{ demoRow20 with rul := 1 }]).count
        { demoRow20 with rul := 1 } =
        v * ([{ demoRow20 with rul := 1 }].count
          { demoRow20 with rul := 1 })) ∧
    (({ demoRow20 with rul := 1 } : TrainRow).rul = 0 →
      (balanceRul takeFrac id [{ demoRow20 with rul := 1 }]).count
        { demoRow20 with rul := 1 } ≤
        [{ demoRow20 with rul := 1 }].count { demoRow20 with rul := 1 }) :=
  c3_high_rul_dropped takeFrac id
    (fun l => List.take_sublist _ l) (fun l => List.Perm.refl l)
    [{ demoRow20 with rul := 1 }] { demoRow20 with rul := 1 }

/-! ## C4 — alert thresholds never fire for temperature / humidity -/

unseal Rat.add Rat.sub Rat.mul Rat.inv in
/-- **C4 (code defect).** The alert loop runs on the raw sensor names
(`temp`, `humid` are in the kept vocabulary) but `ALERT_THRESH` is keyed
by the standardized names (`temperature`, `humidity`), and the rename
happens only *after* fault labelling: a temperature reading of 200 °C —
far above the configured `hi = 101` — is not alerted, and an hour with
two such out-of-range readings is not flagged faulty, although a raw
`pressure` reading (whose name does match the dict) alerts as intended
and two simultaneous alerts do set the fault flag. -/
theorem c4_alert_threshold_mismatch :
    keepSensors.contains "temp" = true ∧
    keepSensors.contains "humid" = true ∧
    threshOf "temperature" = some (41, 101) ∧
    (101 : ℚ) < 200 ∧
    alertB ⟨0, "E1", "temp", 200⟩ = false ∧
    alertB ⟨0, "E1", "humid", 200⟩ = false ∧
    faultyAt [⟨0, "E1", "temp", 200⟩, ⟨0, "E1", "humid", 200⟩] 0 "E1"
      = false ∧
    alertB ⟨0, "E1", "pressure", 200⟩ = true ∧
    faultyAt [⟨0, "E1", "pressure", 200⟩, ⟨0, "E1", "vibration", 10⟩] 0 "E1"
      = true ∧
    faultyAt [⟨0, "E1", "pressure", 200⟩] 0 "E1" = false := by decide

/-! ## C8 — non-promoted uploads leave the latest references alone -/

/-- **C8.** With `promote = false`, `_upload` issues exactly the two
version-history `put_object` calls and the store is unchanged at both
`latest` keys; and for either value of `promote`, the `latest` keys are
among the written keys iff `promote` is true. -/
theorem c8_upload_no_promote (store : Store) (vk dump mj : String)
    (h1 : vk ++ "/lgbm_regressor.json" ≠ LATEST_MODEL_KEY)
    (h2 : vk ++ "/metrics.json" ≠ LATEST_METRIC_KEY)
    (h3 : vk ++ "/metrics.json" ≠ LATEST_MODEL_KEY)
    (h4 : vk ++ "/lgbm_regressor.json" ≠ LATEST_METRIC_KEY) :
    (upload store vk dump mj false).2 =
      [(vk ++ "/lgbm_regressor.json", dump), (vk ++ "/metrics.json", mj)] ∧
    (upload store vk dump mj false).1 LATEST_MODEL_KEY =
      store LATEST_MODEL_KEY ∧
    (upload store vk dump mj false).1 LATEST_METRIC_KEY =
      store LATEST_METRIC_KEY ∧
    (∀ b : Bool,
      ((LATEST_MODEL_KEY ∈ (upload store vk dump mj b).2.map Prod.fst) ↔
        b = true) ∧
      ((LATEST_METRIC_KEY ∈ (upload store vk dump mj b).2.map Prod.fst) ↔
        b = true)) := by
  refine ⟨by simp [upload], ?_, ?_, ?_⟩
  · simp only [upload, if_neg Bool.false_ne_true, List.append_nil,
      applyPuts, List.foldl]
    rw [if_neg (fun h => h3 h.symm), if_neg (fun h => h1 h.symm)]
  · simp only [upload, if_neg Bool.false_ne_true, List.append_nil,
      applyPuts, List.foldl]
    rw [if_neg (fun h => h2 h.symm), if_neg (fun h => h4 h.symm)]
  · intro b
    cases b with
    | false =>
      constructor
      · simp [upload]
        exact ⟨fun h => h1 h.symm, fun h => h3 h.symm⟩
      · simp [upload]
        exact ⟨fun h => h4 h.symm, fun h => h2 h.symm⟩
    | true =>
      constructor
      · simp [upload]
      · simp [upload]

/-- Witness for C8 at a concrete timestamped version path. -/
theorem c8_upload_no_promote_witness :
    (upload emptyStore "models/2025/10/12/000000" "d" "m" false).2 =
      [("models/2025/10/12/000000" ++ "/lgbm_regressor.json", "d"),
       ("models/2025/10/12/000000" ++ "/metrics.json", "m")] ∧
    (upload emptyStore "models/2025/10/12/000000" "d" "m" false).1
      LATEST_MODEL_KEY = emptyStore LATEST_MODEL_KEY ∧
    (upload emptyStore "models/2025/10/12/000000" "d" "m" false).1
      LATEST_METRIC_KEY = emptyStore LATEST_METRIC_KEY ∧
    (∀ b : Bool,
      ((LATEST_MODEL_KEY ∈
        (upload emptyStore "models/2025/10/12/000000" "d" "m" b).2.map
          Prod.fst) ↔ b = true) ∧
      ((LATEST_METRIC_KEY ∈
        (upload emptyStore "models/2025/10/12/000000" "d" "m" b).2.map
          Prod.fst) ↔ b = true)) :=
  c8_upload_no_promote emptyStore "models/2025/10/12/000000" "d" "m"
    (by decide) (by decide) (by decide) (by decide)

/-! ## C9 — `_fetch_latest_rmse` failure behaviour -/

/-- **C9.** Reading the previously promoted metrics yields
`(+∞, {})` (`none` models `float("inf")`) on *any* exception — the
missing-object `NoSuchKey` case and every other error (network,
permission, unparseable body) alike — and yields `+∞` with the parsed
metadata when the stored dict lacks an `"rmse"` field; consequently,
whenever no previous rmse is obtained the promotion gate reduces to the
R² floor alone. -/
theorem c9_fetch_latest_rmse (msg : String) (meta : List (String × ℚ))
    (m : Metrics) :
    fetchLatestRmse .noSuchKey = (none, []) ∧
    fetchLatestRmse (.errorOther msg) = (none, []) ∧
    (meta.lookup "rmse" = none →
      fetchLatestRmse (.got meta) = (none, meta)) ∧
    (promoteDecision none m = true ↔ MIN_R2 ≤ m.r2) := by
  refine ⟨rfl, rfl, ?_, ?_⟩
  · intro h
    simp [fetchLatestRmse, h]
  · simp [promoteDecision]

/-- Witness for C9 at a stored metrics dict lacking `"rmse"`. -/
theorem c9_fetch_latest_rmse_witness :
    fetchLatestRmse .noSuchKey = (none, []) ∧
    fetchLatestRmse (.errorOther "ConnectionError") = (none, []) ∧
    fetchLatestRmse (.got [("mae", 1)]) = (none, [("mae", 1)]) ∧
    (promoteDecision none demoMetrics = true ↔ MIN_R2 ≤ demoMetrics.r2) :=
  ⟨(c9_fetch_latest_rmse "ConnectionError" [("mae", 1)] demoMetrics).1,
   (c9_fetch_latest_rmse "ConnectionError" [("mae", 1)] demoMetrics).2.1,
   (c9_fetch_latest_rmse "ConnectionError" [("mae", 1)] demoMetrics).2.2.1
     (by decide),
   (c9_fetch_latest_rmse "ConnectionError" [("mae", 1)] demoMetrics).2.2.2⟩

/-! ## C10 — the serving-side model cache is never invalidated -/

/-- **C10.** Once `_model` holds a loaded booster `b`, `get_model`,
`is_ready` and `predict` all use that same cached object with no S3
fetch, and their behaviour is independent of the storage/configuration
environment — in particular unchanged after a retraining run promotes a
new model into the bucket. -/
theorem c10_cache_never_invalidated {B : Type} (b : B) (env env' : ServeEnv B)
    (po : B → List PRow → Except String (List ℚ)) (df : List PRow) :
    getModelS (some b) env = (some b, false) ∧
    getModelS (some b) env = getModelS (some b) env' ∧
    isReadyS (some b) env = (true, false) ∧
    predictS (some b) env po df = predictS (some b) env' po df ∧
    (predictS (some b) env po df).2.1 = some b ∧
    (predictS (some b) env po df).2.2 = false := by
  refine ⟨rfl, rfl, rfl, ?_, ?_, ?_⟩
  · unfold predictS getModelS
    rfl
  · cases df with
    | nil => rfl
    | cons x xs =>
      cases hbx : buildX (x :: xs) with
      | none => simp [predictS, getModelS, hbx]
      | some y =>
        cases hpo : po b y with
        | ok ys => simp [predictS, getModelS, hbx, hpo]
        | error e => simp [predictS, getModelS, hbx, hpo]
  · cases df with
    | nil => rfl
    | cons x xs =>
      cases hbx : buildX (x :: xs) with
      | none => simp [predictS, getModelS, hbx]
      | some y =>
        cases hpo : po b y with
        | ok ys => simp [predictS, getModelS, hbx, hpo]
        | error e => simp [predictS, getModelS, hbx, hpo]

/-! ## C5 — serving-side feature schema -/

theorem mapOpt_some_forall {α β : Type} (f : α → Option β) (l : List α)
    (h : ∀ a ∈ l, (f a).isSome) :
    ∃ out, mapOpt f l = some out ∧ ∀ r ∈ out, ∃ a ∈ l, f a = some r := by
  induction l with
  | nil => exact ⟨[], rfl, by simp⟩
  | cons a t ih =>
    obtain ⟨out, hout, hr⟩ := ih (fun x hx => h x (List.mem_cons_of_mem _ hx))
    obtain ⟨b, hb⟩ :=
      Option.isSome_iff_exists.mp (h a (List.mem_cons_self _ _))
    refine ⟨b :: out, by simp [mapOpt, hb, hout], ?_⟩
    intro r hrmem
    rcases List.mem_cons.mp hrmem with h1 | h2
    · exact ⟨a, List.mem_cons_self _ _, h1 ▸ hb⟩
    · obtain ⟨x, hx1, hx2⟩ := hr r h2
      exact ⟨x, List.mem_cons_of_mem _ hx1, hx2⟩

theorem lookup_map_self {α β : Type} [BEq α] [LawfulBEq α] (l : List α)
    (f : α → β) (c : α) (h : c ∈ l) :
    (l.map (fun a => (a, f a))).lookup c = some (f c) := by
  induction l with
  | nil => simp at h
  | cons a t ih =>
    by_cases he : c = a
    · subst he
      simp [List.lookup_cons]
    · have hb : (c == a) = false := beq_eq_false_iff_ne.mpr he
      have h2 : c ∈ t := by
        rcases List.mem_cons.mp h with h1 | h2
        · exact absurd h1 he
        · exact h2
      simp [List.lookup_cons, hb, ih h2]

theorem overwrite_keys (cells : List (String × Option ℚ)) (k : String)
    (v : Option ℚ) :
    ((cells.map (fun p => if p.1 = k then (k, v) else p)).map Prod.fst) =
      cells.map Prod.fst := by
  rw [List.map_map]
  apply List.map_congr_left
  intro p _
  by_cases hp : p.1 = k
  · simp [hp]
  · simp [hp]

theorem lookup_overwrite_ne (cells : List (String × Option ℚ)) (k : String)
    (v : Option ℚ) (c : String) (h : c ≠ k) :
    (cells.map (fun p => if p.1 = k then (k, v) else p)).lookup c =
      cells.lookup c := by
  induction cells with
  | nil => rfl
  | cons p t ih =>
    by_cases hp : p.1 = k
    · have hb : (c == k) = false := beq_eq_false_iff_ne.mpr h
      have hb2 : (c == p.1) = false := by rw [hp]; exact hb
      simp only [List.map_cons, if_pos hp]
      rw [show ((k, v) :: t.map (fun p => if p.1 = k then (k, v) else p))
          = ((k, v) :: t.map (fun p => if p.1 = k then (k, v) else p)) from rfl]
      cases hpair : p with
      | mk p1 p2 =>
        simp only [List.lookup_cons, hb, hpair ▸ hb2]
        rw [hpair] at hb2
        simp only [hb2] at *
        exact ih
    · simp only [List.map_cons, if_neg hp]
      cases hpair : p with
      | mk p1 p2 =>
        simp only [List.lookup_cons]
        cases hcp : (c == p1) with
        | true => rfl
        | false => exact ih

theorem setCell_keys_sub (cells : List (String × Option ℚ)) (k : String)
    (v : Option ℚ) (x : String) (hx : x ∈ cells.map Prod.fst) :
    x ∈ (setCell cells k v).map Prod.fst := by
  unfold setCell
  by_cases hc : (cells.map Prod.fst).contains k = true
  · rw [if_pos hc, overwrite_keys]
    exact hx
  · rw [if_neg hc, List.map_append]
    exact List.mem_append_left _ hx

theorem setCell_key_mem (cells : List (String × Option ℚ)) (k : String)
    (v : Option ℚ) : k ∈ (setCell cells k v).map Prod.fst := by
  unfold setCell
  by_cases hc : (cells.map Prod.fst).contains k = true
  · rw [if_pos hc, overwrite_keys]
    simpa using hc
  · rw [if_neg hc, List.map_append]
    apply List.mem_append_right
    simp

theorem setCell_lookup_ne (cells : List (String × Option ℚ)) (k : String)
    (v : Option ℚ) (c : String) (h : c ≠ k) :
    (setCell cells k v).lookup c = cells.lookup c := by
  unfold setCell
  by_cases hc : (cells.map Prod.fst).contains k = true
  · rw [if_pos hc]
    exact lookup_overwrite_ne cells k v c h
  · rw [if_neg hc, List.lookup_append]
    have hone : ([(k, v)] : List (String × Option ℚ)).lookup c = none := by
      simp [List.lookup_cons, beq_eq_false_iff_ne.mpr h]
    rw [hone]
    cases cells.lookup c <;> rfl

theorem pivotCells_keys (sqrtF : ℚ → ℚ) (flt : List SReading)
    (sensors : List String) (e : String) :
    (pivotCells sqrtF flt sensors e).map Prod.fst = pivotCols sensors := by
  simp [pivotCells, pivotCols, List.map_map, Function.comp_def]

theorem cleanCells2_keys (sqrtF : ℚ → ℚ) (flt : List SReading)
    (sensors : List String) (e : String) :
    (cleanCells2 sqrtF flt sensors e).map Prod.fst =
      pivotCols sensors ++ missingCols sensors := by
  unfold cleanCells2
  rw [List.map_append, pivotCells_keys, List.map_map]
  simp [Function.comp_def]

/-- Every numeric schema column is a key of the cells after the
missing-column fill and the `power_factor` write. -/
theorem mem_cleanCells3_keys (sqrtF : ℚ → ℚ) (flt : List SReading)
    (sensors : List String) (e : String) (c : String)
    (hc : c ∈ numFeatureCols) :
    c ∈ (cleanCells3 sqrtF flt sensors e).map Prod.fst := by
  unfold cleanCells3
  by_cases hpf : c = "power_factor"
  · rw [hpf]
    exact setCell_key_mem _ _ _
  · apply setCell_keys_sub
    rw [cleanCells2_keys]
    by_cases hpiv : (pivotCols sensors).contains c = true
    · exact List.mem_append_left _ (by simpa using hpiv)
    · apply List.mem_append_right
      have hcf : c ∈ FEATURE_COLS ∧ c ≠ "equipment" := by
        have := List.mem_filter.mp hc
        refine ⟨this.1, by simpa using this.2⟩
      apply List.mem_filter.mpr
      refine ⟨hcf.1, ?_⟩
      simp only [decide_eq_true_eq]
      push_neg
      exact ⟨hcf.2, by simpa using hpiv⟩

/-- The cleaned row always exists, its columns are exactly the numeric
feature schema, and every column the pivot did not produce (other than
the recomputed `power_factor`) holds the constant fill value 0. -/
theorem buildCleanRow_spec (sqrtF : ℚ → ℚ) (flt : List SReading)
    (sensors : List String) (e : String) :
    ∃ cs, buildCleanRow sqrtF flt sensors e = some ⟨e, cs⟩ ∧
      cs.map Prod.fst = numFeatureCols ∧
      ∀ c ∈ missingCols sensors, c ≠ "power_factor" →
        cs.lookup c = some (some 0) := by
  unfold buildCleanRow
  have hall : numFeatureCols.all (fun c =>
      ((cleanCells3 sqrtF flt sensors e).map Prod.fst).contains c) = true := by
    rw [List.all_eq_true]
    intro c hc
    simpa using mem_cleanCells3_keys sqrtF flt sensors e c hc
  rw [if_pos hall]
  refine ⟨_, rfl, ?_, ?_⟩
  · rw [List.map_map]
    simp [Function.comp_def]
  · intro c hcmiss hcpf
    have hcnum : c ∈ numFeatureCols := by
      have := List.mem_filter.mp hcmiss
      apply List.mem_filter.mpr
      refine ⟨this.1, ?_⟩
      have h2 := this.2
      simp only [decide_eq_true_eq] at h2
      push_neg at h2
      simpa using h2.1
    rw [lookup_map_self numFeatureCols _ c hcnum]
    congr 1
    unfold cleanCells3
    rw [setCell_lookup_ne _ _ _ _ hcpf]
    unfold cleanCells2
    rw [List.lookup_append]
    have hnone : (pivotCells sqrtF flt sensors e).lookup c = none := by
      rw [List.lookup_eq_none_iff]
      intro p hp
      have hpkey : p.1 ∈ pivotCols sensors := by
        rw [← pivotCells_keys sqrtF flt sensors e]
        exact List.mem_map_of_mem _ hp
      have h2 := (List.mem_filter.mp hcmiss).2
      simp only [decide_eq_true_eq] at h2
      push_neg at h2
      have hcnpiv : ¬ (pivotCols sensors).contains c = true := by
        simpa using h2.2
      simp only [bne_iff_ne, ne_eq]
      intro hcp
      exact hcnpiv (by simp [hcp, hpkey])
    rw [hnone]
    have hms := lookup_map_self (missingCols sensors)
      (fun _ => some (0 : ℚ)) c hcmiss
    simp only [hms]
    rfl
/-- **C5 counterexample.** A non-empty raw input — a single `temp`
reading — produces an output row whose `temperature_rollstd` cell is
`NaN`: the rolling std of a single observation is undefined, survives
the group mean, and is *not* among the absent-column fills, so the
claim that numeric columns contain no missing values fails. -/
theorem c5_counterexample :
    (preprocessInputData zeroSqrt [demoReading]).isSome = true ∧
    ((preprocessInputData zeroSqrt [demoReading]).getD []).map
      (fun r => r.cells.lookup "temperature_rollstd") = [some none] ∧
    (((preprocessInputData zeroSqrt [demoReading]).getD []).all
      (fun r => r.cells.all (fun c => c.2.isSome))) = false := by decide

/-- **C5 (amended).** For every raw input with at least one reading of a
known sensor type, `preprocess_input_data` succeeds and every output row
carries exactly the configured feature schema: each `FEATURE_COLS`
entry is the `equipment` field or one of the row's columns, and each
schema column absent after pivoting (other than the recomputed
`power_factor`) is filled with the constant 0.  Numeric columns may
still contain missing values (see the counterexample). -/
theorem c5_feature_cols_complete (sqrtF : ℚ → ℚ) (rows : List SReading)
    (hne : rows ≠ []) :
    ∃ out, preprocessInputData sqrtF rows = some out ∧
      ∀ r ∈ out,
        r.cells.map Prod.fst = numFeatureCols ∧
        (∀ c ∈ FEATURE_COLS,
          c = "equipment" ∨ c ∈ r.cells.map Prod.fst) ∧
        (∀ c ∈ missingCols (sortBy strLe (((rows.filter (fun x =>
            (mappingP.map Prod.fst).contains x.sensorType)).map
            (·.sensorType)).dedup)),
          c ≠ "power_factor" → r.cells.lookup c = some (some 0)) := by
  unfold preprocessInputData
  rw [if_neg hne]
  have hsome : ∀ e ∈ sortBy strLe (((rows.filter (fun x =>
      (mappingP.map Prod.fst).contains x.sensorType)).map
      (·.equipId)).dedup),
      (buildCleanRow sqrtF (rows.filter (fun x =>
        (mappingP.map Prod.fst).contains x.sensorType))
        (sortBy strLe (((rows.filter (fun x =>
          (mappingP.map Prod.fst).contains x.sensorType)).map
          (·.sensorType)).dedup)) e).isSome := by
    intro e _
    obtain ⟨cs, hcs, _, _⟩ := buildCleanRow_spec sqrtF _ _ e
    rw [hcs]
    rfl
  obtain ⟨out, hout, hr⟩ := mapOpt_some_forall _ _ hsome
  refine ⟨out, hout, ?_⟩
  intro r hrmem
  obtain ⟨e, _, he⟩ := hr r hrmem
  obtain ⟨cs, hcs, hkeys, hfill⟩ := buildCleanRow_spec sqrtF
    (rows.filter (fun x => (mappingP.map Prod.fst).contains x.sensorType))
    (sortBy strLe (((rows.filter (fun x =>
      (mappingP.map Prod.fst).contains x.sensorType)).map
      (·.sensorType)).dedup)) e
  rw [hcs] at he
  cases he
  refine ⟨hkeys, ?_, hfill⟩
  intro c hc
  by_cases hce : c = "equipment"
  · exact Or.inl hce
  · right
    rw [hkeys]
    exact List.mem_filter.mpr ⟨hc, by simpa using hce⟩

/-- Witness for the amended C5 at the single-reading input. -/
theorem c5_feature_cols_complete_witness :
    ∃ out, preprocessInputData zeroSqrt [demoReading] = some out ∧
      ∀ r ∈ out,
        r.cells.map Prod.fst = numFeatureCols ∧
        (∀ c ∈ FEATURE_COLS,
          c = "equipment" ∨ c ∈ r.cells.map Prod.fst) ∧
        (∀ c ∈ missingCols (sortBy strLe ((([demoReading].filter (fun x =>
            (mappingP.map Prod.fst).contains x.sensorType)).map
            (·.sensorType)).dedup)),
          c ≠ "power_factor" → r.cells.lookup c = some (some 0)) :=
  c5_feature_cols_complete zeroSqrt [demoReading] (by decide)

end Monitory
